import Mathlib

/-!
Verification of the remote execution-agent lifecycle protocol of the `tdw`
repository (`Python/tdw/tdw_utils.py`, launch/keep-alive/kill helpers) and of
the platform lookup tables (`Python/tdw/backend/platforms.py`).

The wire messages are JSON dictionaries; we embed them as association lists of
string keys and primitive values.  The zmq REQ socket is embedded as a record
holding the remote daemon (a function from a request to an optional reply,
`none` meaning that `recv_json` never returns a reply — the transport failed
or timed out) together with the log of requests sent and replies received.
-/

/-- A primitive JSON value appearing in the protocol messages. -/
inductive JsonVal where
  | str : String → JsonVal
  | num : Int → JsonVal
deriving DecidableEq

/-- A JSON dictionary, embedded as an association list in insertion order. -/
abbrev Json := List (String × JsonVal)

/-- Key lookup in a JSON dictionary, `Python d[k]`; `none` models a KeyError. -/
def jsonGet (j : Json) (k : String) : Option JsonVal :=
  match j with
  | [] => none
  | (k1, v) :: rest => if k1 = k then some v else jsonGet rest k

/-- The zmq REQ socket of `launch_build`, together with the remote daemon it is
connected to and the observable log of its traffic. -/
structure ZmqSocket where
  /-- The remote `launch_binaries` daemon: the reply it gives to each request,
  `none` when no reply ever arrives (transport failure / unreachable). -/
  daemon : Json → Option Json
  /-- The address the socket was connected to (`socket.connect(...)`). -/
  addr : String
  /-- Requests sent so far (`socket.send_json`), oldest first. -/
  sent : List Json
  /-- Replies received so far (`socket.recv_json`), oldest first. -/
  received : List Json

/-- One strict REQ/REP exchange: `socket.send_json(request)` followed by
`socket.recv_json()`.  The request is always recorded as sent; the first
component is `none` when no reply arrives. -/
def socketExchange (s : ZmqSocket) (request : Json) : Option Json × ZmqSocket :=
  match s.daemon request with
  | none => (none, { s with sent := s.sent ++ [request] })
  | some reply =>
    (some reply,
     { s with sent := s.sent ++ [request], received := s.received ++ [reply] })

/-- The `start_build` request dictionary built by `TDWUtils._send_start_build`. -/
def start_build_request (controller_address : String) : Json :=
  [("type", JsonVal.str "start_build"),
   ("controller_address", JsonVal.str controller_address)]

/-- The `keep_alive` request dictionary built by `TDWUtils._send_keep_alive`. -/
def keep_alive_request (build_port : JsonVal) : Json :=
  [("type", JsonVal.str "keep_alive"), ("build_port", build_port)]

/-- The `kill_build` request dictionary built by `TDWUtils._send_kill_build`. -/
def kill_build_request (build_port : JsonVal) : Json :=
  [("type", JsonVal.str "kill_build"), ("build_port", build_port)]

/-- `TDWUtils._send_start_build`: send the start request, block on the reply,
return the build-info dictionary verbatim.  `none` models `recv_json` never
returning (the daemon is unreachable). -/
def TDWUtils.send_start_build (socket : ZmqSocket) (controller_address : String) :
    Option Json × ZmqSocket :=
  socketExchange socket (start_build_request controller_address)

/-- `TDWUtils._send_keep_alive`: read `build_info["build_port"]` (the outer
`none` models the KeyError raised when it is missing — before anything is
sent), send the keep-alive request and block on the heartbeat reply (the inner
`none` models a reply that never arrives). -/
def TDWUtils.send_keep_alive (socket : ZmqSocket) (build_info : Json) :
    Option (Option Json × ZmqSocket) :=
  match jsonGet build_info "build_port" with
  | none => none
  | some build_port => some (socketExchange socket (keep_alive_request build_port))

/-- `TDWUtils._send_kill_build`: read `build_info["build_port"]`, send the kill
request and block until the kill-status reply arrives, returning it. -/
def TDWUtils.send_kill_build (socket : ZmqSocket) (build_info : Json) :
    Option (Option Json × ZmqSocket) :=
  match jsonGet build_info "build_port" with
  | none => none
  | some build_port => some (socketExchange socket (kill_build_request build_port))

/-- State of the background keep-alive thread spawned by `launch_build`:
either still running its `while True` loop, or dead after an uncaught
exception escaped `_send_keep_alive` (the socket keeps its final log). -/
inductive ThreadState where
  | running : ZmqSocket → ThreadState
  | dead : ZmqSocket → ThreadState

/-- The socket (and hence the traffic log) held by the thread in either state. -/
def ThreadState.socket : ThreadState → ZmqSocket
  | .running s => s
  | .dead s => s

/-- `TDWUtils._keep_alive_thread`, unrolled for `n` iterations of its
`while True` body.  Each iteration runs `_send_keep_alive(socket, build_info)`
and then `time.sleep(60)`; an exception (KeyError on a missing `build_port`,
or a transport failure during the exchange) is uncaught, so it kills the
thread, which then performs no further iteration.  The loop itself has no
cancellation check and no failure handling of its own. -/
def TDWUtils.keep_alive_thread_run (build_info : Json) (st : ThreadState) :
    Nat → ThreadState
  | 0 => st
  | n + 1 =>
    match TDWUtils.keep_alive_thread_run build_info st n with
    | .dead s => .dead s
    | .running s =>
      match TDWUtils.send_keep_alive s build_info with
      | none => .dead s
      | some (none, s1) => .dead s1
      | some (some _, s1) => .running s1

/-- Wall-clock time at which iteration `n` of `_keep_alive_thread` performs its
send, for a thread started at time `t0` whose `n`-th exchange (send plus
blocking `recv_json`) takes `delay n` time units: iteration `0` sends at
thread start, and each later iteration waits for the previous exchange and
then for `time.sleep(60)`. -/
def keep_alive_send_time (t0 : Nat) (delay : Nat → Nat) : Nat → Nat
  | 0 => t0
  | n + 1 => keep_alive_send_time t0 delay n + delay n + 60

/-- `TDWUtils.launch_build`: create the zmq REQ socket, connect it to
`tcp://build_address:listener_port`, run `_send_start_build` and return the
resulting build-info dictionary.  `none` models the call never returning
(`recv_json` blocks forever because the daemon is unreachable).  The spawned
keep-alive thread shares the returned socket; its behaviour is
`TDWUtils.keep_alive_thread_run` on that socket. -/
def TDWUtils.launch_build (daemon : Json → Option Json) (listener_port : Nat)
    (build_address controller_address : String) : Option (Json × ZmqSocket) :=
  let socket : ZmqSocket :=
    { daemon := daemon,
      addr := "tcp://" ++ build_address ++ ":" ++ toString listener_port,
      sent := [], received := [] }
  match TDWUtils.send_start_build socket controller_address with
  | (none, _) => none
  | (some build_info, s) => some (build_info, s)

/-! The platform lookup tables of `Python/tdw/backend/platforms.py`,
embedded as association lists in source order. -/

/-- Convert `platform.system()` to S3 URL infixes. -/
def SYSTEM_TO_S3 : List (String × String) :=
  [("Windows", "windows"), ("Darwin", "osx"), ("Linux", "linux")]

/-- Convert S3 URL infixes to Unity build targets. -/
def S3_TO_UNITY : List (String × String) :=
  [("windows", "StandaloneWindows64"), ("osx", "StandaloneOSX"),
   ("linux", "StandaloneLinux64")]

/-- Convert `platform.system()` to Unity build targets. -/
def SYSTEM_TO_UNITY : List (String × String) :=
  [("Windows", "StandaloneWindows64"), ("Darwin", "StandaloneOSX"),
   ("Linux", "StandaloneLinux64")]

/-- Convert Unity build targets to `platform.system()`. -/
def UNITY_TO_SYSTEM : List (String × String) :=
  [("StandaloneWindows64", "Windows"), ("StandaloneOSX", "Darwin"),
   ("StandaloneLinux64", "Linux")]

/-- Key lookup in a string-valued table, `Python d[k]` made total. -/
def tableGet (t : List (String × String)) (k : String) : Option String :=
  match t with
  | [] => none
  | (k1, v) :: rest => if k1 = k then some v else tableGet rest k

/-! Concrete demonstration inputs, matching the example scenario of the spec:
a daemon at `127.0.0.1:5556` that replies to `start_build` with
`{build_port: 5557}` and to every other request with `{status: "ok"}`. -/

/-- A healthy daemon: replies `{build_port: 5557}` to `start_build` and
`{status: "ok"}` to everything else. -/
def okDaemon : Json → Option Json := fun request =>
  match jsonGet request "type" with
  | some (JsonVal.str "start_build") => some [("build_port", JsonVal.num 5557)]
  | _ => some [("status", JsonVal.str "ok")]

/-- The build-info dictionary `okDaemon` returns for a start request. -/
def demoBuildInfo : Json := [("build_port", JsonVal.num 5557)]

/-- The acknowledgment reply `okDaemon` gives to heartbeats and kills. -/
def okReply : Json := [("status", JsonVal.str "ok")]

/-- A freshly connected socket to `okDaemon`. -/
def demoSocket : ZmqSocket :=
  { daemon := okDaemon, addr := "tcp://127.0.0.1:5556", sent := [], received := [] }

/-- A constant exchange duration, for concrete timing instances. -/
def zeroDelay : Nat → Nat := fun _ => 0

/-- Invariant of the healthy keep-alive loop: as long as `build_info` carries a
`build_port` and the daemon answers the keep-alive request, after `n`
iterations the thread is still running, the daemon is unchanged, and exactly
`n` keep-alive requests were sent and `n` heartbeat replies received. -/
theorem keep_alive_run_ok (build_info : Json) (bp : JsonVal) (r : Json)
    (s0 : ZmqSocket) (hbp : jsonGet build_info "build_port" = some bp)
    (hd : s0.daemon (keep_alive_request bp) = some r) (n : Nat) :
    ∃ s : ZmqSocket,
      TDWUtils.keep_alive_thread_run build_info (ThreadState.running s0) n
        = ThreadState.running s ∧
      s.daemon = s0.daemon ∧
      s.sent = s0.sent ++ List.replicate n (keep_alive_request bp) ∧
      s.received = s0.received ++ List.replicate n r := by
  induction n with
  | zero => exact ⟨s0, rfl, rfl, by simp, by simp⟩
  | succ n ih =>
    obtain ⟨s, hrun, hdmn, hsent, hrecv⟩ := ih
    refine ⟨{ s with
                sent := s.sent ++ [keep_alive_request bp],
                received := s.received ++ [r] }, ?_, ?_, ?_, ?_⟩
    · simp only [TDWUtils.keep_alive_thread_run, hrun, TDWUtils.send_keep_alive,
        hbp, socketExchange, hdmn, hd]
    · exact hdmn
    · simp [hsent, List.replicate_succ']
    · simp [hrecv, List.replicate_succ']

/-- C1: for every start reply from the daemon that contains a port,
`launch_build` sends exactly the payload
`{type: "start_build", controller_address: controllerAddress}` over the
control channel and returns the reply dictionary as the session descriptor,
whose session identifier (its `build_port` field) equals the `build_port`
field of that reply. -/
theorem launch_sends_start_and_returns_port (daemon : Json → Option Json)
    (listener_port : Nat) (build_address controller_address : String)
    (reply : Json) (p : JsonVal)
    (hreply : daemon (start_build_request controller_address) = some reply)
    (hport : jsonGet reply "build_port" = some p) :
    ∃ s : ZmqSocket,
      TDWUtils.launch_build daemon listener_port build_address controller_address
        = some (reply, s) ∧
      s.sent = [start_build_request controller_address] ∧
      jsonGet reply "build_port" = some p := by
  refine ⟨{ daemon := daemon,
            addr := "tcp://" ++ build_address ++ ":" ++ toString listener_port,
            sent := [start_build_request controller_address],
            received := [reply] }, ?_, rfl, hport⟩
  simp only [TDWUtils.launch_build, TDWUtils.send_start_build, socketExchange,
    hreply, List.nil_append]

/-- C1 witness: the demo daemon replying `{build_port: 5557}`. -/
theorem launch_sends_start_and_returns_port_witness :
    okDaemon (start_build_request "10.0.0.1") = some demoBuildInfo ∧
    jsonGet demoBuildInfo "build_port" = some (JsonVal.num 5557) ∧
    ∃ s : ZmqSocket,
      TDWUtils.launch_build okDaemon 5556 "127.0.0.1" "10.0.0.1"
        = some (demoBuildInfo, s) ∧
      s.sent = [start_build_request "10.0.0.1"] ∧
      jsonGet demoBuildInfo "build_port" = some (JsonVal.num 5557) :=
  ⟨rfl, rfl, launch_sends_start_and_returns_port okDaemon 5556 "127.0.0.1"
    "10.0.0.1" demoBuildInfo (JsonVal.num 5557) rfl rfl⟩

/-- C2: each tick of the heartbeat loop sends exactly the payload
`{type: "keep_alive", build_port: build_info["build_port"]}` (the build_port
of the start reply) and awaits exactly one reply before the next tick; the
pause between ticks is the fixed `time.sleep(60)`, so iteration `k + 1` sends
at the time of iteration `k` plus that tick's reply wait plus 60 seconds. -/
theorem heartbeat_payload_and_period (build_info : Json) (bp : JsonVal)
    (r : Json) (s0 : ZmqSocket) (n : Nat)
    (hbp : jsonGet build_info "build_port" = some bp)
    (hd : s0.daemon (keep_alive_request bp) = some r) :
    (∃ s : ZmqSocket,
      TDWUtils.keep_alive_thread_run build_info (ThreadState.running s0) n
        = ThreadState.running s ∧
      s.sent = s0.sent ++ List.replicate n (keep_alive_request bp) ∧
      s.received = s0.received ++ List.replicate n r) ∧
    (∀ t0 delay k, keep_alive_send_time t0 delay (k + 1)
        = keep_alive_send_time t0 delay k + delay k + 60) := by
  obtain ⟨s, h1, _, h3, h4⟩ := keep_alive_run_ok build_info bp r s0 hbp hd n
  exact ⟨⟨s, h1, h3, h4⟩, fun t0 delay k => rfl⟩

/-- C2 witness: three ticks of the loop against the demo daemon. -/
theorem heartbeat_payload_and_period_witness :
    jsonGet demoBuildInfo "build_port" = some (JsonVal.num 5557) ∧
    demoSocket.daemon (keep_alive_request (JsonVal.num 5557)) = some okReply ∧
    ((∃ s : ZmqSocket,
      TDWUtils.keep_alive_thread_run demoBuildInfo (ThreadState.running demoSocket) 3
        = ThreadState.running s ∧
      s.sent = demoSocket.sent
          ++ List.replicate 3 (keep_alive_request (JsonVal.num 5557)) ∧
      s.received = demoSocket.received ++ List.replicate 3 okReply) ∧
    (∀ t0 delay k, keep_alive_send_time t0 delay (k + 1)
        = keep_alive_send_time t0 delay k + delay k + 60)) :=
  ⟨rfl, rfl, heartbeat_payload_and_period demoBuildInfo (JsonVal.num 5557)
    okReply demoSocket 3 rfl rfl⟩

/-- C7: heartbeat sends for a session are strictly sequential — send times
strictly increase, so no two sends coincide — and consecutive sends are spaced
at least the 60-second interval apart. -/
theorem heartbeat_sequential_and_spaced (t0 : Nat) (delay : Nat → Nat)
    (m n : Nat) (h : m < n) :
    keep_alive_send_time t0 delay m < keep_alive_send_time t0 delay n ∧
    keep_alive_send_time t0 delay m + 60 ≤ keep_alive_send_time t0 delay (m + 1) := by
  constructor
  · have mono : StrictMono (keep_alive_send_time t0 delay) := by
      apply strictMono_nat_of_lt_succ
      intro k
      show keep_alive_send_time t0 delay k
        < keep_alive_send_time t0 delay k + delay k + 60
      omega
    exact mono h
  · show keep_alive_send_time t0 delay m + 60
      ≤ keep_alive_send_time t0 delay m + delay m + 60
    omega

/-- C7 witness: sends 0 and 2 of a loop started at time 5. -/
theorem heartbeat_sequential_and_spaced_witness :
    0 < 2 ∧
    (keep_alive_send_time 5 zeroDelay 0 < keep_alive_send_time 5 zeroDelay 2 ∧
     keep_alive_send_time 5 zeroDelay 0 + 60
       ≤ keep_alive_send_time 5 zeroDelay (0 + 1)) :=
  ⟨by decide, heartbeat_sequential_and_spaced 5 zeroDelay 0 2 (by decide)⟩

/-- C8: stop sends exactly the payload
`{type: "kill_build", build_port: build_info["build_port"]}` (the build_port
of the start reply) over the channel, blocks until one acknowledgment reply
arrives, and returns that reply. -/
theorem stop_sends_kill_and_returns_ack (s : ZmqSocket) (build_info : Json)
    (bp : JsonVal) (r : Json)
    (hbp : jsonGet build_info "build_port" = some bp)
    (hd : s.daemon (kill_build_request bp) = some r) :
    ∃ s1 : ZmqSocket,
      TDWUtils.send_kill_build s build_info = some (some r, s1) ∧
      s1.sent = s.sent ++ [kill_build_request bp] ∧
      s1.received = s.received ++ [r] := by
  refine ⟨{ s with
              sent := s.sent ++ [kill_build_request bp],
              received := s.received ++ [r] }, ?_, rfl, rfl⟩
  simp only [TDWUtils.send_kill_build, hbp, socketExchange, hd]

/-- C8 witness: stopping the demo session. -/
theorem stop_sends_kill_and_returns_ack_witness :
    jsonGet demoBuildInfo "build_port" = some (JsonVal.num 5557) ∧
    demoSocket.daemon (kill_build_request (JsonVal.num 5557)) = some okReply ∧
    ∃ s1 : ZmqSocket,
      TDWUtils.send_kill_build demoSocket demoBuildInfo = some (some okReply, s1) ∧
      s1.sent = demoSocket.sent ++ [kill_build_request (JsonVal.num 5557)] ∧
      s1.received = demoSocket.received ++ [okReply] :=
  ⟨rfl, rfl, stop_sends_kill_and_returns_ack demoSocket demoBuildInfo
    (JsonVal.num 5557) okReply rfl rfl⟩

/-- C9: the first keep_alive is sent immediately at thread start: iteration 0
sends at the thread start time `t0` with no preceding interval wait, and one
iteration of the loop body already sends the keep-alive request. -/
theorem first_heartbeat_immediate (t0 : Nat) (delay : Nat → Nat)
    (build_info : Json) (bp : JsonVal) (r : Json) (s0 : ZmqSocket)
    (hbp : jsonGet build_info "build_port" = some bp)
    (hd : s0.daemon (keep_alive_request bp) = some r) :
    keep_alive_send_time t0 delay 0 = t0 ∧
    ∃ s : ZmqSocket,
      TDWUtils.keep_alive_thread_run build_info (ThreadState.running s0) 1
        = ThreadState.running s ∧
      s.sent = s0.sent ++ [keep_alive_request bp] := by
  refine ⟨rfl, ?_⟩
  obtain ⟨s, h1, _, h3, _⟩ := keep_alive_run_ok build_info bp r s0 hbp hd 1
  exact ⟨s, h1, by simpa using h3⟩

/-- C9 witness: the demo loop's first tick, thread started at time 7. -/
theorem first_heartbeat_immediate_witness :
    jsonGet demoBuildInfo "build_port" = some (JsonVal.num 5557) ∧
    demoSocket.daemon (keep_alive_request (JsonVal.num 5557)) = some okReply ∧
    (keep_alive_send_time 7 zeroDelay 0 = 7 ∧
    ∃ s : ZmqSocket,
      TDWUtils.keep_alive_thread_run demoBuildInfo (ThreadState.running demoSocket) 1
        = ThreadState.running s ∧
      s.sent = demoSocket.sent ++ [keep_alive_request (JsonVal.num 5557)]) :=
  ⟨rfl, rfl, first_heartbeat_immediate 7 zeroDelay demoBuildInfo
    (JsonVal.num 5557) okReply demoSocket rfl rfl⟩

/-- A daemon that replies to `start_build` but never answers anything else:
keep-alive and kill exchanges see no reply (transport failure / timeout). -/
def failDaemon : Json → Option Json := fun request =>
  match jsonGet request "type" with
  | some (JsonVal.str "start_build") => some [("build_port", JsonVal.num 5557)]
  | _ => none

/-- A daemon whose start reply is malformed: it carries no `build_port`. -/
def noPortDaemon : Json → Option Json := fun _ =>
  some [("status", JsonVal.str "ok")]

/-- C3: the claim fails on the code.  In the concrete run below, the session
is launched, `_send_kill_build` is executed (stop), and the keep-alive
thread — which has no cancellation handle and never consults any state — then
performs its next loop iteration and sends a further keep_alive for the same
session identifier 5557 after the kill_build. -/
theorem keep_alive_sent_after_kill :
    ∃ (build_info : Json) (s1 : ZmqSocket) (ack : Json) (s2 : ZmqSocket)
      (hb : Json) (s3 : ZmqSocket),
      TDWUtils.launch_build okDaemon 5556 "127.0.0.1" "10.0.0.1"
        = some (build_info, s1) ∧
      TDWUtils.send_kill_build s1 build_info = some (some ack, s2) ∧
      TDWUtils.send_keep_alive s2 build_info = some (some hb, s3) ∧
      s3.sent = [start_build_request "10.0.0.1",
                 kill_build_request (JsonVal.num 5557),
                 keep_alive_request (JsonVal.num 5557)] := by
  exact ⟨_, _, _, _, _, _, rfl, rfl, rfl, rfl⟩

/-- C4: the claim fails on the code.  `_send_kill_build` keeps no state and is
not guarded by any registry: calling it a second time on the same session
sends a second kill_build message over the channel. -/
theorem second_stop_sends_second_kill :
    ∃ (build_info : Json) (s1 : ZmqSocket) (ack1 : Json) (s2 : ZmqSocket)
      (ack2 : Json) (s3 : ZmqSocket),
      TDWUtils.launch_build okDaemon 5556 "127.0.0.1" "10.0.0.1"
        = some (build_info, s1) ∧
      TDWUtils.send_kill_build s1 build_info = some (some ack1, s2) ∧
      TDWUtils.send_kill_build s2 build_info = some (some ack2, s3) ∧
      s3.sent = [start_build_request "10.0.0.1",
                 kill_build_request (JsonVal.num 5557),
                 kill_build_request (JsonVal.num 5557)] := by
  exact ⟨_, _, _, _, _, _, rfl, rfl, rfl, rfl⟩

/-- C5: the claim fails on the code.  When the start reply carries no
`build_port`, `launch_build` does not fail: it returns the malformed
dictionary as the descriptor, and only the detached keep-alive thread later
dies of the KeyError on its first iteration. -/
theorem launch_accepts_reply_without_port :
    ∃ s : ZmqSocket,
      TDWUtils.launch_build noPortDaemon 5556 "127.0.0.1" "10.0.0.1"
        = some ([("status", JsonVal.str "ok")], s) ∧
      jsonGet [("status", JsonVal.str "ok")] "build_port" = none ∧
      TDWUtils.keep_alive_thread_run [("status", JsonVal.str "ok")]
        (ThreadState.running s) 1 = ThreadState.dead s := by
  exact ⟨_, rfl, rfl, rfl⟩

/-- C6: partially fails on the code.  When the first heartbeat exchange gets
no reply, the uncaught exception kills the thread — so no further heartbeat is
sent (iterations 1 and 5 leave the same final log) and nothing reaches the
caller synchronously — but the code records no Faulted classification
anywhere: no session state of any kind exists. -/
theorem heartbeat_failure_kills_thread :
    ∃ (build_info : Json) (s1 : ZmqSocket) (s2 : ZmqSocket),
      TDWUtils.launch_build failDaemon 5556 "127.0.0.1" "10.0.0.1"
        = some (build_info, s1) ∧
      TDWUtils.keep_alive_thread_run build_info (ThreadState.running s1) 1
        = ThreadState.dead s2 ∧
      TDWUtils.keep_alive_thread_run build_info (ThreadState.running s1) 5
        = ThreadState.dead s2 ∧
      s2.sent = [start_build_request "10.0.0.1",
                 keep_alive_request (JsonVal.num 5557)] := by
  exact ⟨_, _, _, rfl, rfl, rfl, rfl⟩

/-- C10: the platform lookup tables are mutually coherent: composing
`SYSTEM_TO_S3` with `S3_TO_UNITY` agrees with `SYSTEM_TO_UNITY` on the three
system names, and `UNITY_TO_SYSTEM` is the exact inverse of `SYSTEM_TO_UNITY`
in both round-trip directions. -/
theorem platform_tables_coherent :
    (∀ k ∈ ["Windows", "Darwin", "Linux"],
      tableGet SYSTEM_TO_UNITY k
        = (tableGet SYSTEM_TO_S3 k).bind (tableGet S3_TO_UNITY)) ∧
    (∀ k ∈ ["Windows", "Darwin", "Linux"],
      (tableGet SYSTEM_TO_UNITY k).bind (tableGet UNITY_TO_SYSTEM) = some k) ∧
    (∀ u ∈ ["StandaloneWindows64", "StandaloneOSX", "StandaloneLinux64"],
      (tableGet UNITY_TO_SYSTEM u).bind (tableGet SYSTEM_TO_UNITY) = some u) := by
  refine ⟨?_, ?_, ?_⟩ <;> decide

/-- C10 witness: the Windows round trip. -/
theorem platform_tables_coherent_witness :
    "Windows" ∈ (["Windows", "Darwin", "Linux"] : List String) ∧
    tableGet SYSTEM_TO_UNITY "Windows"
      = (tableGet SYSTEM_TO_S3 "Windows").bind (tableGet S3_TO_UNITY) :=
  ⟨by decide, platform_tables_coherent.1 "Windows" (by decide)⟩
